import Mathlib

/-!
Shallow embedding of the dosing-protocol engine of `src/app.py`
(Advanced PRP Therapy Calculator, tab 1 "HSCT Hemorrhagic Cystitis",
plus the tab 3 RPM/RCF conversion formulas).

Numbers that the Python source handles as floats are modelled as `ℚ`
(the engine only multiplies, divides by nonzero values, compares with
literal thresholds and clamps, so the rational semantics is exact);
the RPM/RCF converter needs a square root and is modelled over `ℝ`.
Session counts are natural numbers, as in the source.
-/

/-- Hemorrhagic cystitis severity, the `grade` selectbox
("Grade 1" .. "Grade 4") of the source. -/
inductive Grade where
  | g1
  | g2
  | g3
  | g4
deriving DecidableEq

/-- Response to previous treatment, the `response_status` selectbox
("Naive", "Partial Response", "Recurrent"). -/
inductive ResponseStatus where
  | naive
  | partialResponse
  | recurrent
deriving DecidableEq

/-- Adjunctive preparation, the `glue_type` selectbox
("Standard PRP", "Fibrin Glue (Cryo-based)", "PRF Glue (Combined)", "PRF Gel"). -/
inductive AdjunctType where
  | standardPRP
  | fibrinGlueCryo
  | prfGlueCombined
  | prfGel
deriving DecidableEq

/-- Treatment frequency, a pass-through label (`treatment_freq`). -/
inductive TreatmentFreq where
  | weekly
  | biweekly
  | monthly
deriving DecidableEq

/-- The `glue_params` dict of the source.  Each key may be absent
(the source populates keys conditionally and reads them with
`dict.get(key, default)`), hence `Option` fields; `buildAdjunctProcedure`
applies the source's read-time defaults via `Option.getD`. -/
structure GlueParams where
  cryo_vol : Option Nat
  calciumRatioStr : Option String
  incubation_time : Option Nat
  activation_temp : Option Nat
deriving DecidableEq

/-- Base session count by grade: the `base_sessions` dict of `src/app.py`
(lines 121-126). -/
def baseSessions : Grade → Nat
  | .g1 => 2
  | .g2 => 3
  | .g3 => 4
  | .g4 => 5

/-- Numeric impact of the response status on the session count, read off
the `if response_status == "Partial Response" ... elif ... "Recurrent"`
adjustment of the source (lines 133-134). -/
def respScore : ResponseStatus → Nat
  | .naive => 0
  | .partialResponse => 1
  | .recurrent => 2

/-- The `sessions` computation of `src/app.py` lines 121-134: grade base value,
then `+1` if `hematoma_size > 2.0`, `+1` if `hematoma_size > 4.0`,
`+1` if `wall_thick > 6.0`, then `+1` for "Partial Response" or (elif)
`+2` for "Recurrent". -/
def computeSessionCount (grade : Grade) (hematoma_size wall_thick : ℚ)
    (response_status : ResponseStatus) : Nat :=
  let s1 := baseSessions grade
  let s2 := if hematoma_size > 2 then s1 + 1 else s1
  let s3 := if hematoma_size > 4 then s2 + 1 else s2
  let s4 := if wall_thick > 6 then s3 + 1 else s3
  match response_status with
  | .partialResponse => s4 + 1
  | .recurrent => s4 + 2
  | .naive => s4

/-- The `required_blood_ml` computation of `src/app.py` lines 137-138:
`(target_vol * target_plt) / (cbc_plt * 0.5) if cbc_plt > 0 else 0`,
then `max(20, ...)`. -/
def requiredBloodMl (target_vol target_plt cbc_plt : ℚ) : ℚ :=
  max 20 (if cbc_plt > 0 then (target_vol * target_plt) / (cbc_plt * (1/2)) else 0)

/-- The `apheresis_vol_ml` computation of `src/app.py` lines 140-141:
`(target_vol * target_plt) / (cbc_plt * 2.5) if cbc_plt > 0 else 0`,
then `max(50, ...)`. -/
def apheresisVolMl (target_vol target_plt cbc_plt : ℚ) : ℚ :=
  max 50 (if cbc_plt > 0 then (target_vol * target_plt) / (cbc_plt * (5/2)) else 0)

/-- The pair of blood requirements (whole blood, apheresis) computed by
the generate block. -/
def computeBloodRequirements (target_vol target_plt cbc_plt : ℚ) : ℚ × ℚ :=
  (requiredBloodMl target_vol target_plt cbc_plt,
   apheresisVolMl target_vol target_plt cbc_plt)

/-- The `glue_prep_steps` list of `src/app.py` lines 170-191, one branch per
adjunct type; "Standard PRP" produces no steps (the whole block is
skipped).  Parameter reads mirror the source's `glue_params.get(key,
default)` calls. -/
def buildAdjunctProcedure : AdjunctType → GlueParams → List String
  | .standardPRP, _ => []
  | .fibrinGlueCryo, p =>
      ["1. Prepare " ++ toString (p.cryo_vol.getD 30) ++ "ml cryoprecipitate",
       "2. Add calcium gluconate at " ++ p.calciumRatioStr.getD "1:5" ++ " ratio",
       "3. Incubate at " ++ toString (p.activation_temp.getD 37) ++ "°C for 30min"]
  | .prfGlueCombined, p =>
      ["1. Prepare both platelet concentrate and cryoprecipitate",
       "2. Mix components at 2:1 ratio (PRP:Cryo)",
       "3. Add calcium gluconate at " ++ p.calciumRatioStr.getD "1:5" ++ " ratio",
       "4. Incubate at " ++ toString (p.activation_temp.getD 37) ++ "°C for "
         ++ toString (p.incubation_time.getD 30) ++ "min"]
  | .prfGel, p =>
      ["1. Prepare high-concentration PRP (≥2000×10³/μL)",
       "2. Add calcium gluconate at " ++ p.calciumRatioStr.getD "1:5" ++ " ratio",
       "3. Activate at " ++ toString (p.activation_temp.getD 37) ++ "°C for "
         ++ toString (p.incubation_time.getD 30) ++ "min",
       "4. Centrifuge at 200g for 5min"]

/-- The clinical inputs read by tab 1 of the source. -/
structure ClinicalInput where
  grade : Grade
  bladder_vol : ℚ
  wall_thick : ℚ
  hematoma_size : ℚ
  cbc_plt : ℚ
  treatment_freq : TreatmentFreq
  response_status : ResponseStatus
  target_plt : ℚ
  target_vol : ℚ
  adjunctType : AdjunctType
  glueParams : GlueParams
deriving DecidableEq

/-- The computed outputs of the generate block of tab 1. -/
structure DosingRecommendation where
  sessionCount : Nat
  requiredWholeBloodMl : ℚ
  requiredApheresisMl : ℚ
  plateletDosePerInstillation : ℚ
  adjunctProcedureSteps : List String
  ultrasoundFollowUpAfterSessions : Nat
deriving DecidableEq

/-- The generate block of `src/app.py` lines 118-198 as a function of the
collected inputs: session count, blood requirements, platelet dose
(`target_vol * target_plt`, line 155), adjunct steps and the ultrasound
follow-up `max(2, sessions // 2)` (line 166). -/
def generateProtocol (i : ClinicalInput) : DosingRecommendation :=
  let sessions := computeSessionCount i.grade i.hematoma_size i.wall_thick i.response_status
  { sessionCount := sessions
    requiredWholeBloodMl := requiredBloodMl i.target_vol i.target_plt i.cbc_plt
    requiredApheresisMl := apheresisVolMl i.target_vol i.target_plt i.cbc_plt
    plateletDosePerInstillation := i.target_vol * i.target_plt
    adjunctProcedureSteps := buildAdjunctProcedure i.adjunctType i.glueParams
    ultrasoundFollowUpAfterSessions := max 2 (sessions / 2) }

/-- The conversion `calculated_rcf = 1.118e-5 * radius * rpm_input**2`, `src/app.py`
line 285. -/
noncomputable def rcfFromRpm (radius rpm : ℝ) : ℝ :=
  1.118e-5 * radius * rpm ^ 2

/-- The conversion `rpm = sqrt(rcf / (1.118e-5 * radius))`, `src/app.py` line 276. -/
noncomputable def rpmFromRcf (radius rcf : ℝ) : ℝ :=
  Real.sqrt (rcf / (1.118e-5 * radius))

/-- Predicate stating that `s` contains `sub` as a contiguous substring. -/
def containsStr (s sub : String) : Prop :=
  ∃ a b : String, s = a ++ sub ++ b

/-- A concrete clinical input (the source form's default values). -/
def exInput : ClinicalInput :=
  { grade := .g1
    bladder_vol := 150
    wall_thick := 5
    hematoma_size := 0
    cbc_plt := 200
    treatment_freq := .biweekly
    response_status := .naive
    target_plt := 1000
    target_vol := 30
    adjunctType := .standardPRP
    glueParams := ⟨none, none, none, none⟩ }

lemma sessionCount_additive (g : Grade) (h w : ℚ) (r : ResponseStatus) :
    computeSessionCount g h w r =
      baseSessions g + (if h > 2 then 1 else 0) + (if h > 4 then 1 else 0)
        + (if w > 6 then 1 else 0) + respScore r := by
  cases r <;> simp only [computeSessionCount, respScore] <;> split_ifs <;> omega

lemma indicator_mono (c x y : ℚ) (hxy : x ≤ y) :
    (if x > c then (1:Nat) else 0) ≤ (if y > c then 1 else 0) := by
  by_cases hx : x > c
  · have hy : y > c := lt_of_lt_of_le hx hxy
    rw [if_pos hx, if_pos hy]
  · rw [if_neg hx]
    exact Nat.zero_le _

lemma sessionCount_ge_two (g : Grade) (h w : ℚ) (r : ResponseStatus) :
    2 ≤ computeSessionCount g h w r := by
  rw [sessionCount_additive]
  cases g <;> simp only [baseSessions] <;> omega

lemma sessionCount_le_ten (g : Grade) (h w : ℚ) (r : ResponseStatus) :
    computeSessionCount g h w r ≤ 10 := by
  have h1 : (if h > 2 then (1:Nat) else 0) ≤ 1 := by split_ifs <;> omega
  have h2 : (if h > 4 then (1:Nat) else 0) ≤ 1 := by split_ifs <;> omega
  have h3 : (if w > 6 then (1:Nat) else 0) ≤ 1 := by split_ifs <;> omega
  have h4 : respScore r ≤ 2 := by cases r <;> simp [respScore]
  rw [sessionCount_additive]
  cases g <;> simp only [baseSessions] <;> omega

/-- C1: `computeSessionCount` is the grade base value (1→2, 2→3, 3→4, 4→5)
plus independent additive adjustments: +1 when the hematoma diameter
exceeds 2 cm, a further +1 when it exceeds 4 cm, +1 when the wall
thickness exceeds 6 mm, and +1 for a partial response or +2 (not
cumulative with the +1) for a recurrent case; in particular it returns 10
for grade 4 / hematoma 5 cm / wall 7 mm / recurrent, and 2 for grade 1 /
hematoma 0 / wall 5 mm / naive. -/
theorem C1_sessionCount_formula :
    (∀ (g : Grade) (h w : ℚ) (r : ResponseStatus),
        computeSessionCount g h w r =
          (match g with | .g1 => 2 | .g2 => 3 | .g3 => 4 | .g4 => 5)
            + (if h > 2 then 1 else 0) + (if h > 4 then 1 else 0)
            + (if w > 6 then 1 else 0)
            + (match r with | .naive => 0 | .partialResponse => 1 | .recurrent => 2))
    ∧ computeSessionCount .g4 5 7 .recurrent = 10
    ∧ computeSessionCount .g1 0 5 .naive = 2 := by
  refine ⟨?_, by decide, by decide⟩
  intro g h w r
  rw [sessionCount_additive]
  cases g <;> cases r <;> rfl

/-- C2: for positive `cbc_plt`, `computeBloodRequirements` returns
`max 20 (target_vol * target_plt / (cbc_plt * 0.5))` whole-blood ml and
`max 50 (target_vol * target_plt / (cbc_plt * 2.5))` apheresis ml;
at (30, 1000, 200) this is (300, 60) and at a very high platelet count
(30, 1000, 10000) both results clamp to the floors (20, 50). -/
theorem C2_bloodRequirements_formula :
    (∀ v c p : ℚ, p > 0 →
        computeBloodRequirements v c p
          = (max 20 (v * c / (p * (1/2))), max 50 (v * c / (p * (5/2)))))
    ∧ computeBloodRequirements 30 1000 200 = (300, 60)
    ∧ computeBloodRequirements 30 1000 10000 = (20, 50) := by
  refine ⟨?_, ?_, ?_⟩
  · intro v c p hp
    simp only [computeBloodRequirements, requiredBloodMl, apheresisVolMl, if_pos hp]
  · norm_num [computeBloodRequirements, requiredBloodMl, apheresisVolMl]
  · norm_num [computeBloodRequirements, requiredBloodMl, apheresisVolMl]

/-- C2 witness: the formula instantiated at (30, 1000, 200). -/
theorem C2_bloodRequirements_formula_witness :
    computeBloodRequirements 30 1000 200
      = (max 20 ((30:ℚ) * 1000 / (200 * (1/2))), max 50 ((30:ℚ) * 1000 / (200 * (5/2)))) :=
  C2_bloodRequirements_formula.1 30 1000 200 (by decide)

/-- C3 counterexample: at `cbc_plt = 0` the code silently returns the
clamped floor values (20, 50) — an ordinary result, equal to the output
at the perfectly valid input (1, 1, 1000) — rather than reporting any
distinct failure. -/
theorem C3_no_distinct_failure_counterexample :
    computeBloodRequirements 30 1000 0 = (20, 50)
    ∧ computeBloodRequirements 1 1 1000 = (20, 50) := by
  constructor <;> norm_num [computeBloodRequirements, requiredBloodMl, apheresisVolMl]

/-- C3 amended: when `cbc_plt ≤ 0` the guard expression substitutes 0 for
each quotient, so `computeBloodRequirements` silently returns the floor
defaults (20, 50) instead of a distinct failure. -/
theorem C3_zero_cbc_returns_floors :
    ∀ v c p : ℚ, p ≤ 0 → computeBloodRequirements v c p = (20, 50) := by
  intro v c p hp
  have hnp : ¬ (p > 0) := not_lt.mpr hp
  norm_num [computeBloodRequirements, requiredBloodMl, apheresisVolMl, if_neg hnp]

/-- C3 witness: the amended statement instantiated at `cbc_plt = 0`. -/
theorem C3_zero_cbc_returns_floors_witness :
    computeBloodRequirements 30 1000 0 = (20, 50) :=
  C3_zero_cbc_returns_floors 30 1000 0 (by decide)

/-- C4: with the grade fixed, `computeSessionCount` is monotonically
non-decreasing in the hematoma diameter, in the wall thickness, and in
the response status ordered naive < partialResponse < recurrent
(jointly, hence in each argument separately). -/
theorem C4_sessionCount_monotone :
    ∀ (g : Grade) (h1 h2 w1 w2 : ℚ) (r1 r2 : ResponseStatus),
      h1 ≤ h2 → w1 ≤ w2 → respScore r1 ≤ respScore r2 →
      computeSessionCount g h1 w1 r1 ≤ computeSessionCount g h2 w2 r2 := by
  intro g h1 h2 w1 w2 r1 r2 hh hw hr
  rw [sessionCount_additive, sessionCount_additive]
  have a1 := indicator_mono 2 h1 h2 hh
  have a2 := indicator_mono 4 h1 h2 hh
  have a3 := indicator_mono 6 w1 w2 hw
  omega

/-- C4 witness: monotonicity instantiated at grade 2, hematoma 1 ≤ 3,
wall 5 ≤ 7, naive ≤ recurrent. -/
theorem C4_sessionCount_monotone_witness :
    computeSessionCount .g2 1 5 .naive ≤ computeSessionCount .g2 3 7 .recurrent :=
  C4_sessionCount_monotone .g2 1 3 5 7 .naive .recurrent (by decide) (by decide) (by decide)

/-- C5: `buildAdjunctProcedure` with `standardPRP` returns the empty step
list for every parameter record, and — both for `buildAdjunctProcedure`
and for the `adjunctProcedureSteps` field of `generateProtocol` — the
step list is empty exactly when the adjunct type is `standardPRP`. -/
theorem C5_standardPRP_empty :
    ∀ (t : AdjunctType) (p : GlueParams) (i : ClinicalInput),
      buildAdjunctProcedure AdjunctType.standardPRP p = []
      ∧ (buildAdjunctProcedure t p = [] ↔ t = AdjunctType.standardPRP)
      ∧ ((generateProtocol i).adjunctProcedureSteps = []
          ↔ i.adjunctType = AdjunctType.standardPRP) := by
  intro t p i
  refine ⟨rfl, ?_, ?_⟩
  · cases t <;> simp [buildAdjunctProcedure]
  · obtain ⟨g, bv, wt, hs, cp, tf, rs, tp, tv, adj, gp⟩ := i
    cases adj <;> simp [generateProtocol, buildAdjunctProcedure]

/-- C6: `buildAdjunctProcedure` on `fibrinGlueCryo` returns exactly 3
ordered steps — prepare cryoprecipitate at the (default 30 ml) cryo
volume, add calcium gluconate at the (default 1:5) ratio, incubate at
the (default 37 °C) activation temperature for a fixed 30 minutes — and
each step's text contains the substituted parameter value verbatim. -/
theorem C6_fibrinGlue_steps :
    ∀ p : GlueParams,
      buildAdjunctProcedure AdjunctType.fibrinGlueCryo p =
        ["1. Prepare " ++ toString (p.cryo_vol.getD 30) ++ "ml cryoprecipitate",
         "2. Add calcium gluconate at " ++ p.calciumRatioStr.getD "1:5" ++ " ratio",
         "3. Incubate at " ++ toString (p.activation_temp.getD 37) ++ "°C for 30min"]
      ∧ (buildAdjunctProcedure AdjunctType.fibrinGlueCryo p).length = 3
      ∧ containsStr ("1. Prepare " ++ toString (p.cryo_vol.getD 30) ++ "ml cryoprecipitate")
          (toString (p.cryo_vol.getD 30))
      ∧ containsStr ("2. Add calcium gluconate at " ++ p.calciumRatioStr.getD "1:5" ++ " ratio")
          (p.calciumRatioStr.getD "1:5")
      ∧ containsStr ("3. Incubate at " ++ toString (p.activation_temp.getD 37) ++ "°C for 30min")
          (toString (p.activation_temp.getD 37))
      ∧ buildAdjunctProcedure AdjunctType.fibrinGlueCryo ⟨none, none, none, none⟩ =
          ["1. Prepare 30ml cryoprecipitate",
           "2. Add calcium gluconate at 1:5 ratio",
           "3. Incubate at 37°C for 30min"] := by
  intro p
  exact ⟨rfl, rfl,
    ⟨"1. Prepare ", "ml cryoprecipitate", rfl⟩,
    ⟨"2. Add calcium gluconate at ", " ratio", rfl⟩,
    ⟨"3. Incubate at ", "°C for 30min", rfl⟩, rfl⟩

/-- C7: `generateProtocol` is a deterministic pure function of the
clinical input — two calls on identical inputs agree on all six output
fields (session count, whole-blood ml, apheresis ml, platelet dose,
adjunct steps, ultrasound follow-up). -/
theorem C7_generateProtocol_deterministic :
    ∀ i j : ClinicalInput, i = j →
      (generateProtocol i).sessionCount = (generateProtocol j).sessionCount
      ∧ (generateProtocol i).requiredWholeBloodMl = (generateProtocol j).requiredWholeBloodMl
      ∧ (generateProtocol i).requiredApheresisMl = (generateProtocol j).requiredApheresisMl
      ∧ (generateProtocol i).plateletDosePerInstillation
          = (generateProtocol j).plateletDosePerInstillation
      ∧ (generateProtocol i).adjunctProcedureSteps = (generateProtocol j).adjunctProcedureSteps
      ∧ (generateProtocol i).ultrasoundFollowUpAfterSessions
          = (generateProtocol j).ultrasoundFollowUpAfterSessions := by
  intro i j hij
  subst hij
  exact ⟨rfl, rfl, rfl, rfl, rfl, rfl⟩

/-- C7 witness: determinism instantiated at the concrete default input. -/
theorem C7_generateProtocol_deterministic_witness :
    (generateProtocol exInput).sessionCount = (generateProtocol exInput).sessionCount
    ∧ (generateProtocol exInput).requiredWholeBloodMl
        = (generateProtocol exInput).requiredWholeBloodMl
    ∧ (generateProtocol exInput).requiredApheresisMl
        = (generateProtocol exInput).requiredApheresisMl
    ∧ (generateProtocol exInput).plateletDosePerInstillation
        = (generateProtocol exInput).plateletDosePerInstillation
    ∧ (generateProtocol exInput).adjunctProcedureSteps
        = (generateProtocol exInput).adjunctProcedureSteps
    ∧ (generateProtocol exInput).ultrasoundFollowUpAfterSessions
        = (generateProtocol exInput).ultrasoundFollowUpAfterSessions :=
  C7_generateProtocol_deterministic exInput exInput rfl

/-- C8: the RPM/RCF converter satisfies the round trip — for positive
radius and non-negative RCF, converting RCF to RPM by
`sqrt(rcf / (1.118e-5 * radius))` and back by
`1.118e-5 * radius * rpm^2` returns the original RCF. -/
theorem C8_rpm_rcf_roundtrip :
    ∀ radius rcf : ℝ, 0 < radius → 0 ≤ rcf →
      rcfFromRpm radius (rpmFromRcf radius rcf) = rcf := by
  intro r x hr hx
  have hc : (0:ℝ) < 1.118e-5 := by norm_num
  have hcr : (0:ℝ) < 1.118e-5 * r := mul_pos hc hr
  unfold rcfFromRpm rpmFromRcf
  rw [Real.sq_sqrt (div_nonneg hx hcr.le)]
  field_simp

/-- C8 witness: the round trip at radius 1 cm, RCF 1 g. -/
theorem C8_rpm_rcf_roundtrip_witness :
    rcfFromRpm 1 (rpmFromRcf 1 1) = 1 :=
  C8_rpm_rcf_roundtrip 1 1 one_pos zero_le_one

/-- C9: for every grade, hematoma diameter, wall thickness and response
status, `computeSessionCount` lies between 2 and 10, with 2 attained at
grade 1 with no adjustments and 10 attained at grade 4 / hematoma 5 /
wall 7 / recurrent. -/
theorem C9_sessionCount_bounds :
    (∀ (g : Grade) (h w : ℚ) (r : ResponseStatus),
        2 ≤ computeSessionCount g h w r ∧ computeSessionCount g h w r ≤ 10)
    ∧ computeSessionCount .g1 0 5 .naive = 2
    ∧ computeSessionCount .g4 5 7 .recurrent = 10 :=
  ⟨fun g h w r => ⟨sessionCount_ge_two g h w r, sessionCount_le_ten g h w r⟩,
   by decide, by decide⟩

/-- C10: the ultrasound follow-up of `generateProtocol` equals
`max 2 (sessionCount / 2)` (integer division), hence is always at least
2 and never greater than the session count. -/
theorem C10_ultrasound_followup :
    ∀ i : ClinicalInput,
      (generateProtocol i).ultrasoundFollowUpAfterSessions
          = max 2 ((generateProtocol i).sessionCount / 2)
      ∧ 2 ≤ (generateProtocol i).ultrasoundFollowUpAfterSessions
      ∧ (generateProtocol i).ultrasoundFollowUpAfterSessions
          ≤ (generateProtocol i).sessionCount := by
  intro i
  have hs : 2 ≤ (generateProtocol i).sessionCount :=
    sessionCount_ge_two i.grade i.hematoma_size i.wall_thick i.response_status
  have hdiv : (generateProtocol i).sessionCount / 2 ≤ (generateProtocol i).sessionCount :=
    Nat.div_le_self _ _
  exact ⟨rfl, le_max_left _ _, max_le hs hdiv⟩
